import Mathlib

/-!
# Verification of the weekly/monthly period-pairing and formula-generation core

Shallow embedding of the period aggregator and dashboard formula builder of
the Google Ads monitoring scripts
(`src/scripts/weekly-ads-monitor/weekly-ads-monitor-1-8-9.js` and the monthly
variant in `src/unnamed/part_001`), together with proofs about the claims of
the specification.

Modelling conventions:
* Calendar dates (`yyyy-MM-dd` strings in the source) are `Civil` triples;
  the JS `Date.getTime()` millisecond arithmetic on UTC midnights is mirrored
  by `epochDay` (days since 1970-01-01, standard civil-from-days algorithm),
  so the source's `timeDiff / 86400000` becomes a difference of `epochDay`s.
* `Date.prototype.setFullYear` keeps month/day and rolls Feb 29 over to
  Mar 1 in a non-leap target year; `jsSetFullYear` reproduces that.
* Machine numbers are embedded as `ℚ`/`ℤ`; `Math.round` is `⌊x + 1/2⌋`.
-/

namespace WeeklyAdsMonitor

/-- A civil (Gregorian) calendar date, the meaning of a `yyyy-MM-dd` string. -/
structure Civil where
  year : Int
  month : Int
  day : Int
deriving DecidableEq, Repr

/-- Gregorian leap-year test (JS `Date` calendar). -/
def isLeap (y : Int) : Bool :=
  y % 4 = 0 && (y % 100 != 0 || y % 400 = 0)

/-- Days since 1970-01-01 of a civil date (standard days-from-civil
algorithm).  This is the value of `new Date("yyyy-MM-dd").getTime()`
divided by 86 400 000, since date-only strings parse to UTC midnight. -/
def epochDay (c : Civil) : Int :=
  let y := if c.month ≤ 2 then c.year - 1 else c.year
  let era := (if 0 ≤ y then y else y - 399) / 400
  let yoe := y - era * 400
  let mp := (c.month + 9) % 12
  let doy := (153 * mp + 2) / 5 + c.day - 1
  let doe := yoe * 365 + yoe / 4 - yoe / 100 + doy
  era * 146097 + doe - 719468

/-- Inverse of `epochDay` (standard civil-from-days algorithm); used for the
source's day-offset arithmetic such as `endDate.setDate(startDate.getDate() + 6)`. -/
def civilOfEpochDay (z : Int) : Civil :=
  let z' := z + 719468
  let era := (if 0 ≤ z' then z' else z' - 146096) / 146097
  let doe := z' - era * 146097
  let yoe := (doe - doe / 1460 + doe / 36524 - doe / 146096) / 365
  let y := yoe + era * 400
  let doy := doe - (365 * yoe + yoe / 4 - yoe / 100)
  let mp := (5 * doy + 2) / 153
  let d := doy - (153 * mp + 2) / 5 + 1
  let m := if mp < 10 then mp + 3 else mp - 9
  ⟨if m ≤ 2 then y + 1 else y, m, d⟩

/-- `date.setFullYear(y)`: keeps month and day, except that Feb 29 in a
non-leap target year rolls over to Mar 1 (JS `Date` field overflow). -/
def jsSetFullYear (c : Civil) (y : Int) : Civil :=
  if c.month = 2 ∧ c.day = 29 ∧ ¬ isLeap y then ⟨y, 3, 1⟩ else ⟨y, c.month, c.day⟩

/-- Absolute day distance between two dates: the source's
`Math.abs(weekDate.getTime() - exactPreviousDate.getTime()) / (1000*60*60*24)`. -/
def dayDist (a b : Civil) : Int :=
  |epochDay a - epochDay b|

/-- One step of the closest-week scan in `findClosestPreviousYearWeek`:
the state is `(closestWeek, smallestDiff)`, where `smallestDiff = none`
models the initial `Infinity`; a week updates the state when
`daysDiff <= 7 && daysDiff < smallestDiff`. -/
def closestStep (exactPreviousDate : Civil) (st : Option Civil × Option Int)
    (weekStr : Civil) : Option Civil × Option Int :=
  let daysDiff := dayDist weekStr exactPreviousDate
  match st.2 with
  | none => if daysDiff ≤ 7 then (some weekStr, some daysDiff) else st
  | some smallestDiff =>
      if daysDiff ≤ 7 ∧ daysDiff < smallestDiff then (some weekStr, some daysDiff) else st

/-- `findClosestPreviousYearWeek(currentYearWeekStart, availablePreviousWeeks, rawData)`:
computes the same calendar date one year earlier; if that exact date is in the
available list it is returned, otherwise the available weeks are scanned in
order keeping the first strictly-closest week within 7 days of the target.
The source's third parameter `rawData` only
feeds a debug log of the chosen week's record count and spend and never
affects the returned value, so it is not a parameter here. -/
def findClosestPreviousYearWeek (currentYearWeekStart : Civil)
    (availablePreviousWeeks : List Civil) : Option Civil :=
  let exactPreviousDate := jsSetFullYear currentYearWeekStart (currentYearWeekStart.year - 1)
  if exactPreviousDate ∈ availablePreviousWeeks then
    some exactPreviousDate
  else
    (availablePreviousWeeks.foldl (closestStep exactPreviousDate) (none, none)).1

/-- One `{current, previous}` entry of the weekly `weekPairs` array. -/
structure WeekPair where
  current : Civil
  previous : Option Civil
deriving DecidableEq, Repr

/-- The body of the weekly pairing loop: push one pair for `currentWeek`,
with the found previous-year week, or `null` when there is none. -/
def pairStep (previousYearWeeks : List Civil) (weekPairs : List WeekPair)
    (currentWeek : Civil) : List WeekPair :=
  match findClosestPreviousYearWeek currentWeek previousYearWeeks with
  | some previousWeek => weekPairs ++ [⟨currentWeek, some previousWeek⟩]
  | none => weekPairs ++ [⟨currentWeek, none⟩]

/-- The weekly pairing loop of `createWeeklySummary`
(`currentYearWeeks.forEach(...)` building `weekPairs`). -/
def buildWeekPairs (currentYearWeeks previousYearWeeks : List Civil) : List WeekPair :=
  currentYearWeeks.foldl (pairStep previousYearWeeks) []

/-! ## Date strings and the raw-data rows of `processData` -/

/-- Two-digit zero padding used by `yyyy-MM-dd` formatting. -/
def pad2 (n : Int) : String :=
  if n < 10 then "0" ++ toString n else toString n

/-- `Utilities.formatDate(date, tz, 'yyyy-MM-dd')` for a civil date. -/
def formatCivil (c : Civil) : String :=
  toString c.year ++ "-" ++ pad2 c.month ++ "-" ++ pad2 c.day

/-- Parse a `yyyy-MM-dd` string back to a civil date (`new Date(weekStart)`);
`none` models an Invalid Date. -/
def parseCivil (s : String) : Option Civil :=
  match s.splitOn "-" with
  | [y, m, d] =>
      match y.toNat?, m.toNat?, d.toNat? with
      | some yn, some mn, some dn => some ⟨yn, mn, dn⟩
      | _, _, _ => none
  | _ => none

/-- Does `sub` occur in `s` starting at the head of the given suffix? -/
def leadsWith : List Char → List Char → Bool
  | [], _ => true
  | _ :: _, [] => false
  | a :: as, b :: bs => a = b && leadsWith as bs

/-- JS `String.prototype.includes`: `sub` occurs contiguously in `s`. -/
def strContains (s sub : String) : Bool :=
  (List.range (s.data.length + 1)).any (fun i => leadsWith sub.data (s.data.drop i))

/-- JS `Math.round` (round half toward positive infinity). -/
def jsRound (q : ℚ) : Int := ⌊q + 1 / 2⌋

/-- `Math.round(x * 100) / 100`: round to 2 decimal places. -/
def round2 (q : ℚ) : ℚ := (jsRound (q * 100) : ℚ) / 100

/-- One GAQL result row as consumed by `processData`; every field the source
reads defensively (`campaign.name || ''`, `Number(metrics.clicks) || 0`,
`segments.week || ''`) is an `Option` here, `none` meaning absent/falsy. -/
structure GaqlRow where
  week : Option String
  campaignName : Option String
  advertisingChannelType : Option String
  impressions : Option ℚ
  clicks : Option ℚ
  costMicros : Option ℚ
  conversions : Option ℚ
  conversionsValue : Option ℚ
deriving Repr

/-- The `switch (campaignType)` readability mapping in `processData`. -/
def formatChannelType (t : String) : String :=
  if t = "SEARCH" then "Search"
  else if t = "DISPLAY" then "Display"
  else if t = "SHOPPING" then "Shopping"
  else if t = "VIDEO" then "Video"
  else if t = "PERFORMANCE_MAX" then "Performance Max"
  else if t = "" then "Unknown"
  else t

/-- Week end: `weekStart` plus 6 days, formatted; empty when `weekStart` is
empty (the `if (weekStart)` guard), and falling back to `weekStart` when the
date computation fails (the inner `catch`). -/
def weekEndOf (weekStart : String) : String :=
  if weekStart = "" then ""
  else
    match parseCivil weekStart with
    | some c => formatCivil (civilOfEpochDay (epochDay c + 6))
    | none => weekStart

/-- One 13-column row of the Raw sheet, in source column order A..M. -/
structure OutRow where
  weekStart : String
  weekEnd : String
  campaignName : String
  campaignType : String
  isBrand : Bool
  impressions : ℚ
  clicks : ℚ
  cost : ℚ
  costPerClick : ℚ
  conversions : ℚ
  conversionValue : ℚ
  roas : ℚ
  costPerConversion : ℚ
deriving Repr

/-- The per-row body of `processData`'s loop: defensive field reads, cost
normalization from micros with 2-decimal rounding, and the guarded derived
ratios. -/
def processRow (brands : List String) (row : GaqlRow) : OutRow :=
  let campaignName := row.campaignName.getD ""
  let campaignType := formatChannelType (row.advertisingChannelType.getD "")
  let isBrand := campaignName ∈ brands
  let weekStart := row.week.getD ""
  let impressions := row.impressions.getD 0
  let clicks := row.clicks.getD 0
  let costMicros := row.costMicros.getD 0
  let conversions := row.conversions.getD 0
  let weekEnd := weekEndOf weekStart
  let cost := round2 (costMicros / 1000000)
  let conversionValue := round2 (row.conversionsValue.getD 0)
  let costPerClick := if clicks > 0 then round2 (cost / clicks) else 0
  let costPerConversion := if conversions > 0 then round2 (cost / conversions) else 0
  let roas := if cost > 0 then round2 (conversionValue / cost) else 0
  ⟨weekStart, weekEnd, campaignName, campaignType, isBrand, impressions, clicks,
    cost, costPerClick, conversions, conversionValue, roas, costPerConversion⟩

/-- What `processData` accumulates: the pushed rows (`data`), the total row
count (`count`) and the brand-campaign count — the quantities reported in its
"Data processing summary" (`processedRecords` is `data.length`). -/
structure ProcessResult where
  data : List OutRow
  count : ℕ
  brandCampaignCount : ℕ
deriving Repr

/-- `processData(rows)`: one pass over the report rows, pushing one 13-column
row per input row.  (The source's per-row `try/catch` only skips rows whose
field accessors throw, which cannot happen in this pure model; a missing or
malformed `segments.week` does NOT throw — the row is pushed with an empty
week start.)  `processStep` is one loop iteration. -/
def processStep (brands : List String) (res : ProcessResult) (row : GaqlRow) : ProcessResult :=
  { data := res.data ++ [processRow brands row]
    count := res.count + 1
    brandCampaignCount :=
      res.brandCampaignCount + (if (row.campaignName.getD "") ∈ brands then 1 else 0) }

/-- `processData(rows)`: the whole loop over the report rows. -/
def processData (brands : List String) (rows : List GaqlRow) : ProcessResult :=
  rows.foldl (processStep brands) ⟨[], 0, 0⟩

/-- JS `Set` insertion-order de-duplication (`[...new Set(l)]`). -/
def setUniqueStr (l : List String) : List String :=
  l.foldl (fun acc x => if x ∈ acc then acc else acc ++ [x]) []

/-- Lexicographic comparison of char lists (JS default string sort order). -/
def charListLT : List Char → List Char → Bool
  | [], [] => false
  | [], _ :: _ => true
  | _ :: _, [] => false
  | a :: as, b :: bs => if a < b then true else if b < a then false else charListLT as bs

/-- Insertion into a lexicographically sorted string list. -/
def insertStr (x : String) : List String → List String
  | [] => [x]
  | y :: ys => if charListLT x.data y.data then x :: y :: ys else y :: insertStr x ys

/-- JS `Array.prototype.sort()` on strings (lexicographic insertion sort). -/
def sortStr : List String → List String
  | [] => []
  | x :: xs => insertStr x (sortStr xs)

/-- `[...new Set(rawData.map(row => row[0]))].sort()`. -/
def allWeekDatesOf (data : List OutRow) : List String :=
  sortStr (setUniqueStr (data.map OutRow.weekStart))

/-- `allWeekDates.filter(week => week.includes(year.toString()))`. -/
def yearWeeksOf (data : List OutRow) (year : String) : List String :=
  (allWeekDatesOf data).filter (fun w => strContains w year)

/-! ## The monthly builder (`createMonthlySummary`, src/unnamed/part_001) -/

/-- Number of days in a month of the Gregorian calendar. -/
def lastDayOfMonth (y m : Int) : Int :=
  if m = 2 then (if isLeap y then 29 else 28)
  else if m = 4 ∨ m = 6 ∨ m = 9 ∨ m = 11 then 30
  else 31

/-- `new Date(today.getFullYear(), today.getMonth(), 0)`: the last day of the
month before `today`'s month. -/
def jsMonthlyEnd (today : Civil) : Civil :=
  if today.month = 1 then ⟨today.year - 1, 12, 31⟩
  else ⟨today.year, today.month - 1, lastDayOfMonth today.year (today.month - 1)⟩

/-- `lastCompleteMonth.getMonth() + 1`: the 1-based month number of the last
complete month. -/
def currentMonthNumberOf (today : Civil) : Int :=
  (jsMonthlyEnd today).month

/-- Linear month index, used to compare calendar months across years. -/
def monthIdx (c : Civil) : Int := 12 * c.year + (c.month - 1)

/-- Calendar order on civil dates (dates compare lexicographically by year,
month, day; this is also the lexicographic string order of `yyyy-MM-dd`). -/
def civilLEb (a b : Civil) : Bool :=
  if a.year < b.year then true
  else if b.year < a.year then false
  else if a.month < b.month then true
  else if b.month < a.month then false
  else a.day ≤ b.day

/-- JS `Set` insertion-order de-duplication for civil dates. -/
def setUniqueCivil (l : List Civil) : List Civil :=
  l.foldl (fun acc x => if x ∈ acc then acc else acc ++ [x]) []

/-- Insertion into a calendar-sorted list of civil dates. -/
def insertCivil (x : Civil) : List Civil → List Civil
  | [] => [x]
  | y :: ys => if civilLEb x y then x :: y :: ys else y :: insertCivil x ys

/-- `Array.prototype.sort()` on `yyyy-MM-dd` strings, as civil dates. -/
def sortCivilList : List Civil → List Civil
  | [] => []
  | x :: xs => insertCivil x (sortCivilList xs)

/-- The month-list derivation of `createMonthlySummary` (lines 431-445):
sorted unique month starts, split by year (`month.includes(year)`, which for
`yyyy-MM-01` keys means the year field equals `year`), then BOTH lists
truncated to the first `currentMonthNumber` entries. -/
def monthlyLists (rawMonths : List Civil) (currentYear previousYear : Int)
    (currentMonthNumber : ℕ) : List Civil × List Civil :=
  let allMonthDates := sortCivilList (setUniqueCivil rawMonths)
  let currentYearMonths := allMonthDates.filter (fun m => m.year = currentYear)
  let allPreviousYearMonths := allMonthDates.filter (fun m => m.year = previousYear)
  (currentYearMonths.take currentMonthNumber, allPreviousYearMonths.take currentMonthNumber)

/-- The monthly pairing loop (lines 497-500): position `i` of the current-year
list against position `i` of the comparison-year list (`null` when the
comparison list is shorter), with no date-distance search. -/
def monthlyPairs (limitedCurrentYearMonths previousYearMonths : List Civil) :
    List (Civil × Option Civil) :=
  limitedCurrentYearMonths.enum.map (fun ic => (ic.2, previousYearMonths.get? ic.1))

/-! ## Date-range capping (`getDateRange`) -/

/-- JS `Date.prototype.getDay` on an epoch-day number (0 = Sunday;
1970-01-01 was a Thursday, `getDay() = 4`). -/
def jsGetDay (d : Int) : Int := (d + 4) % 7

/-- The weekly script's `getDateRange` end date: the last complete Sunday
(if today is Sunday, the Sunday 7 days ago, since today is not complete). -/
def weeklyEndDay (today : Int) : Int :=
  let dayOfWeek := jsGetDay today
  if dayOfWeek = 0 then today - 7 else today - dayOfWeek

/-- `segments.week` of a report row: the Monday on or before the row's date
(Google Ads weekly segmentation, Monday-start weeks). -/
def mondayOfDay (d : Int) : Int := d - ((d + 3) % 7)

/-! ## The dashboard formula builder

Formulas are built as an AST whose printer reproduces the source's formula
strings byte for byte (`createIfFormula`/`createSumifsFormula` under the
default `en_US` locale map, which emits `IF`/`SUMIFS`; nested calls embed the
inner string including its leading `=`, exactly as the source's string
interpolation does).  Evaluation gives the spreadsheet semantics needed for
the division-guard claims: `/` errors (`none`) on a zero denominator, `IF`
evaluates only the taken branch, and `SUMIFS` is delegated to the external
sheet collaborator `agg`. -/

/-- Formula-expression AST. `rawTok` is a verbatim token such as a range
(`Raw!G:G`) or the literal `FALSE`, which only ever occurs inside `SUMIFS`
argument lists. -/
inductive FExpr where
  | numLit (n : Int)
  | strLit (s : String)
  | rawTok (s : String)
  | cellRef (col : String) (row : ℕ)
  | gtE (a b : FExpr)
  | eqE (a b : FExpr)
  | ifE (c t e : FExpr)
  | divE (a b : FExpr)
  | mulE (a b : FExpr)
  | parenE (e : FExpr)
  | sumifs (args : List FExpr)
deriving Repr

mutual

/-- Print an expression exactly as the source's string interpolation builds
it (`IF`/`SUMIFS` carry the leading `=` the source helpers prepend). -/
def FExpr.print : FExpr → String
  | .numLit n => toString n
  | .strLit s => "\"" ++ s ++ "\""
  | .rawTok s => s
  | .cellRef col row => col ++ toString row
  | .gtE a b => a.print ++ ">" ++ b.print
  | .eqE a b => a.print ++ "=" ++ b.print
  | .ifE c t e => "=IF(" ++ c.print ++ "," ++ t.print ++ "," ++ e.print ++ ")"
  | .divE a b => a.print ++ "/" ++ b.print
  | .mulE a b => a.print ++ "*" ++ b.print
  | .parenE e => "(" ++ e.print ++ ")"
  | .sumifs args => "=SUMIFS(" ++ FExpr.printArgs args ++ ")"

/-- Comma-join of printed `SUMIFS` arguments (`args.join(',')`). -/
def FExpr.printArgs : List FExpr → String
  | [] => ""
  | [a] => a.print
  | a :: rest => a.print ++ "," ++ FExpr.printArgs rest

end

/-- A spreadsheet cell value: number, string, or boolean. -/
inductive SVal where
  | vnum (q : ℚ)
  | vstr (s : String)
  | vbool (b : Bool)
deriving DecidableEq, Repr

/-- Evaluate a formula over a cell environment `env` and the external
aggregation collaborator `agg` (the sheet's `SUMIFS` over the Raw block).
`none` is a formula error (e.g. `#DIV/0!`); `IF` only evaluates the taken
branch, so a guarded division never evaluates its division on the `0` arm. -/
def FExpr.eval (env : String → ℕ → SVal) (agg : List FExpr → ℚ) : FExpr → Option SVal
  | .numLit n => some (.vnum n)
  | .strLit s => some (.vstr s)
  | .rawTok _ => none
  | .cellRef col row => some (env col row)
  | .gtE a b =>
      match a.eval env agg, b.eval env agg with
      | some (.vnum x), some (.vnum y) => some (.vbool (decide (y < x)))
      | _, _ => none
  | .eqE a b =>
      match a.eval env agg, b.eval env agg with
      | some va, some vb => some (.vbool (decide (va = vb)))
      | _, _ => none
  | .ifE c t e =>
      match c.eval env agg with
      | some (.vbool true) => t.eval env agg
      | some (.vbool false) => e.eval env agg
      | _ => none
  | .divE a b =>
      match a.eval env agg, b.eval env agg with
      | some (.vnum x), some (.vnum y) => if y = 0 then none else some (.vnum (x / y))
      | _, _ => none
  | .mulE a b =>
      match a.eval env agg, b.eval env agg with
      | some (.vnum x), some (.vnum y) => some (.vnum (x * y))
      | _, _ => none
  | .parenE e => e.eval env agg
  | .sumifs args => some (.vnum (agg args))

/-- An all-numeric cell environment (the referenced data cells of the summary
block hold the numeric aggregates). -/
def envOf (f : String → ℕ → ℚ) : String → ℕ → SVal := fun col row => .vnum (f col row)

/-- `createIfFormula(condition, trueValue, falseValue)` (en_US locale). -/
def createIfFormula (condition trueValue falseValue : FExpr) : FExpr :=
  .ifE condition trueValue falseValue

/-- `createSumifsFormula(sumRange, criteriaRange1, criteria1, ...)`: the
optional criteria pairs are appended to the argument list when present. -/
def createSumifsFormula (sumRange criteriaRange1 criteria1 : FExpr)
    (extra : List (FExpr × FExpr)) : FExpr :=
  .sumifs ([sumRange, criteriaRange1, criteria1] ++
    extra.foldr (fun p acc => p.1 :: p.2 :: acc) [])

/-- `createComplexSumifsFormula(sumRange, dateRange, dateValue, excludeBrand,
campaignTypeValue, brandRange, campaignTypeRange)`: the nested
`IF(B3="Yes", IF(B2="All", ...), IF(B2="All", ...))` over four `SUMIFS`
variants.  (The source ignores its `excludeBrand` and `campaignTypeValue`
parameters — the toggles are read live from cells B2/B3 — so they are not
parameters here.) -/
def createComplexSumifsFormula (sumRange dateRange dateValue brandRange
    campaignTypeRange : FExpr) : FExpr :=
  let innerIfExcludeBrand :=
    createIfFormula (.eqE (.cellRef "B" 2) (.strLit "All"))
      (createSumifsFormula sumRange dateRange dateValue [(brandRange, .rawTok "FALSE")])
      (createSumifsFormula sumRange dateRange dateValue
        [(brandRange, .rawTok "FALSE"), (campaignTypeRange, .cellRef "B" 2)])
  let innerIfIncludeAll :=
    createIfFormula (.eqE (.cellRef "B" 2) (.strLit "All"))
      (createSumifsFormula sumRange dateRange dateValue [])
      (createSumifsFormula sumRange dateRange dateValue [(campaignTypeRange, .cellRef "B" 2)])
  createIfFormula (.eqE (.cellRef "B" 3) (.strLit "Yes")) innerIfExcludeBrand innerIfIncludeAll

/-- The current/previous-year metric aggregation cell,
`createComplexSumifsFormula(sumRange, 'Raw!A:A', dateValue, true, 'All',
'Raw!E:E', 'Raw!D:D')`. -/
def metricSumifsFormula (sumRange : String) (dateValue : FExpr) : FExpr :=
  createComplexSumifsFormula (.rawTok sumRange) (.rawTok "Raw!A:A") dateValue
    (.rawTok "Raw!E:E") (.rawTok "Raw!D:D")

/-- `costPerConvCurrentFormula`: `IF(O{r}>0, K{r}/O{r}, 0)`. -/
def costPerConvCurrentFormula (rowNum : ℕ) : FExpr :=
  createIfFormula (.gtE (.cellRef "O" rowNum) (.numLit 0))
    (.divE (.cellRef "K" rowNum) (.cellRef "O" rowNum)) (.numLit 0)

/-- `costPerConvPreviousFormula`: `IF(Q{r}>0, M{r}/Q{r}, 0)`. -/
def costPerConvPreviousFormula (rowNum : ℕ) : FExpr :=
  createIfFormula (.gtE (.cellRef "Q" rowNum) (.numLit 0))
    (.divE (.cellRef "M" rowNum) (.cellRef "Q" rowNum)) (.numLit 0)

/-- `avgCPCCurrentFormula`: `IF(C{r}>0, K{r}/C{r}, 0)`. -/
def avgCPCCurrentFormula (rowNum : ℕ) : FExpr :=
  createIfFormula (.gtE (.cellRef "C" rowNum) (.numLit 0))
    (.divE (.cellRef "K" rowNum) (.cellRef "C" rowNum)) (.numLit 0)

/-- `avgCPCPreviousFormula`: `IF(D{r}>0, L{r}/D{r}, 0)` — transcribed as in
the source, which references columns D and L (the WoW columns in the v1.8
layout), not E and M. -/
def avgCPCPreviousFormula (rowNum : ℕ) : FExpr :=
  createIfFormula (.gtE (.cellRef "D" rowNum) (.numLit 0))
    (.divE (.cellRef "L" rowNum) (.cellRef "D" rowNum)) (.numLit 0)

/-- `convValueCostCurrentFormula`: `IF(K{r}>0, W{r}/K{r}, 0)`. -/
def convValueCostCurrentFormula (rowNum : ℕ) : FExpr :=
  createIfFormula (.gtE (.cellRef "K" rowNum) (.numLit 0))
    (.divE (.cellRef "W" rowNum) (.cellRef "K" rowNum)) (.numLit 0)

/-- `convValueCostPreviousFormula`: `IF(M{r}>0, Y{r}/M{r}, 0)`. -/
def convValueCostPreviousFormula (rowNum : ℕ) : FExpr :=
  createIfFormula (.gtE (.cellRef "M" rowNum) (.numLit 0))
    (.divE (.cellRef "Y" rowNum) (.cellRef "M" rowNum)) (.numLit 0)

/-- The week-over-week formula for a current-year column:
`IF({r}>11, IF(X{r-1}>0, (X{r}/X{r-1})*100, 0), 0)`. -/
def wowFormula (col : String) (rowNum : ℕ) : FExpr :=
  createIfFormula (.gtE (.numLit rowNum) (.numLit 11))
    (createIfFormula (.gtE (.cellRef col (rowNum - 1)) (.numLit 0))
      (.mulE (.parenE (.divE (.cellRef col rowNum) (.cellRef col (rowNum - 1)))) (.numLit 100))
      (.numLit 0))
    (.numLit 0)

/-- The YoY index formula: `IF(P{r}>0, (C{r}/P{r})*100, 0)` with `C` the
current-year column and `P` the previous-year column of the metric. -/
def indexFormula (curCol prevCol : String) (rowNum : ℕ) : FExpr :=
  createIfFormula (.gtE (.cellRef prevCol rowNum) (.numLit 0))
    (.mulE (.parenE (.divE (.cellRef curCol rowNum) (.cellRef prevCol rowNum))) (.numLit 100))
    (.numLit 0)

/-- A cell of the written summary block: a number or a string (formula
strings are strings). -/
inductive SheetCell where
  | num (n : Int)
  | text (s : String)
deriving DecidableEq, Repr

/-- The 30-column formula row for week pair `i` (0-based), `rowNum = i + 11`,
columns A..AD in source order. -/
def buildFormulaRow (i : ℕ) (pair : WeekPair) : List SheetCell :=
  let rowNum := i + 11
  let weekStartQuoted : FExpr := .strLit (formatCivil pair.current)
  let prevSumifs : String → SheetCell := fun sumRange =>
    match pair.previous with
    | some p => .text (FExpr.print (metricSumifsFormula sumRange (.strLit (formatCivil p))))
    | none => .text "0"
  let prevFormula : FExpr → SheetCell := fun f =>
    match pair.previous with
    | some _ => .text f.print
    | none => .text "0"
  [ .num (i + 1),                                                      -- A: Week Number
    .text (formatCivil pair.current),                                  -- B: Week Start
    .text (FExpr.print (metricSumifsFormula "Raw!G:G" weekStartQuoted)), -- C: Clicks
    .text (FExpr.print (wowFormula "C" rowNum)),                       -- D: Clicks WoW
    prevSumifs "Raw!G:G",                                              -- E: Clicks prev
    .text (FExpr.print (indexFormula "C" "E" rowNum)),                 -- F: Clicks YoY
    .text (FExpr.print (avgCPCCurrentFormula rowNum)),                 -- G: CPC
    .text (FExpr.print (wowFormula "G" rowNum)),                       -- H: CPC WoW
    .text (FExpr.print (avgCPCPreviousFormula rowNum)),                -- I: CPC prev
    .text (FExpr.print (indexFormula "G" "I" rowNum)),                 -- J: CPC YoY
    .text (FExpr.print (metricSumifsFormula "Raw!H:H" weekStartQuoted)), -- K: Cost
    .text (FExpr.print (wowFormula "K" rowNum)),                       -- L: Cost WoW
    prevSumifs "Raw!H:H",                                              -- M: Cost prev
    .text (FExpr.print (indexFormula "K" "M" rowNum)),                 -- N: Cost YoY
    .text (FExpr.print (metricSumifsFormula "Raw!J:J" weekStartQuoted)), -- O: Conv
    .text (FExpr.print (wowFormula "O" rowNum)),                       -- P: Conv WoW
    prevSumifs "Raw!J:J",                                              -- Q: Conv prev
    .text (FExpr.print (indexFormula "O" "Q" rowNum)),                 -- R: Conv YoY
    .text (FExpr.print (costPerConvCurrentFormula rowNum)),            -- S: Cost/Conv
    .text (FExpr.print (wowFormula "S" rowNum)),                       -- T: Cost/Conv WoW
    prevFormula (costPerConvPreviousFormula rowNum),                   -- U: Cost/Conv prev
    .text (FExpr.print (indexFormula "S" "U" rowNum)),                 -- V: Cost/Conv YoY
    .text (FExpr.print (metricSumifsFormula "Raw!K:K" weekStartQuoted)), -- W: ConvValue
    .text (FExpr.print (wowFormula "W" rowNum)),                       -- X: ConvValue WoW
    prevSumifs "Raw!K:K",                                              -- Y: ConvValue prev
    .text (FExpr.print (indexFormula "W" "Y" rowNum)),                 -- Z: ConvValue YoY
    .text (FExpr.print (convValueCostCurrentFormula rowNum)),          -- AA: ROAS
    .text (FExpr.print (wowFormula "AA" rowNum)),                      -- AB: ROAS WoW
    .text (FExpr.print (convValueCostPreviousFormula rowNum)),         -- AC: ROAS prev
    .text (FExpr.print (indexFormula "AA" "AC" rowNum)) ]              -- AD: ROAS YoY

/-- The formula-generation loop (`for (let i = 0; i < maxWeeks; i++)`): one
30-column row per week pair. -/
def buildFormulaData (weekPairs : List WeekPair) : List (List SheetCell) :=
  weekPairs.enum.map (fun ic => buildFormulaRow ic.1 ic.2)

/-- `summarySheet.clear()`: the summary block loses all previous content. -/
def clearSheetBlock (_prior : List (List SheetCell)) : List (List SheetCell) := []

/-- One invocation of the formula-writing part of `createWeeklySummary` on a
sheet whose formula block currently holds `prior`: the sheet is cleared and
then the generated rows are written. -/
def writeWeeklySummaryBlock (prior : List (List SheetCell))
    (weekPairs : List WeekPair) : List (List SheetCell) :=
  clearSheetBlock prior ++ buildFormulaData weekPairs

/-! ## Helper lemmas -/

theorem dayDist_self (a : Civil) : dayDist a a = 0 := by
  simp [dayDist]

theorem closestStep_far {t w : Civil} (st : Option Civil × Option Int)
    (h : 7 < dayDist w t) : closestStep t st w = st := by
  have hn : ¬ dayDist w t ≤ 7 := by omega
  cases h2 : st.2 with
  | none => simp [closestStep, h2, hn]
  | some s => simp [closestStep, h2, hn]

theorem foldl_closestStep_far (t : Civil) :
    ∀ (l : List Civil) (st : Option Civil × Option Int),
      (∀ w ∈ l, 7 < dayDist w t) → l.foldl (closestStep t) st = st
  | [], _, _ => rfl
  | w :: ws, st, h => by
      rw [List.foldl_cons, closestStep_far st (h w (by simp)),
        foldl_closestStep_far t ws st (fun v hv => h v (by simp [hv]))]

theorem closestStep_within (t : Civil) (st : Option Civil × Option Int) (w : Civil)
    (h : st = (none, none) ∨ ∃ v, st = (some v, some (dayDist v t)) ∧ dayDist v t ≤ 7) :
    closestStep t st w = (none, none) ∨
      ∃ v, closestStep t st w = (some v, some (dayDist v t)) ∧ dayDist v t ≤ 7 := by
  rcases h with rfl | ⟨v, rfl, hv⟩
  · by_cases hd : dayDist w t ≤ 7
    · exact Or.inr ⟨w, by simp [closestStep, hd], hd⟩
    · exact Or.inl (by simp [closestStep, hd])
  · by_cases hd : dayDist w t ≤ 7 ∧ dayDist w t < dayDist v t
    · exact Or.inr ⟨w, by simp [closestStep, hd], hd.1⟩
    · exact Or.inr ⟨v, by simp [closestStep, hd], hv⟩

theorem foldl_closestStep_within (t : Civil) :
    ∀ (l : List Civil) (st : Option Civil × Option Int),
      (st = (none, none) ∨ ∃ v, st = (some v, some (dayDist v t)) ∧ dayDist v t ≤ 7) →
      (l.foldl (closestStep t) st = (none, none) ∨
        ∃ v, l.foldl (closestStep t) st = (some v, some (dayDist v t)) ∧ dayDist v t ≤ 7)
  | [], _, h => h
  | w :: ws, st, h =>
      foldl_closestStep_within t ws (closestStep t st w) (closestStep_within t st w h)

theorem findClosest_within (cur : Civil) (avail : List Civil) (w : Civil)
    (h : findClosestPreviousYearWeek cur avail = some w) :
    dayDist w (jsSetFullYear cur (cur.year - 1)) ≤ 7 := by
  simp only [findClosestPreviousYearWeek] at h
  by_cases hmem : jsSetFullYear cur (cur.year - 1) ∈ avail
  · rw [if_pos hmem] at h
    obtain rfl : jsSetFullYear cur (cur.year - 1) = w := by injection h
    simp [dayDist_self]
  · rw [if_neg hmem] at h
    rcases foldl_closestStep_within (jsSetFullYear cur (cur.year - 1)) avail
        (none, none) (Or.inl rfl) with h2 | ⟨v, h2, hv⟩
    · rw [h2] at h; simp at h
    · rw [h2] at h
      obtain rfl : v = w := by injection h
      exact hv

theorem findClosest_none_of_far (cur : Civil) (avail : List Civil)
    (h : ∀ w ∈ avail, 7 < dayDist w (jsSetFullYear cur (cur.year - 1))) :
    findClosestPreviousYearWeek cur avail = none := by
  simp only [findClosestPreviousYearWeek]
  have hmem : jsSetFullYear cur (cur.year - 1) ∉ avail := by
    intro hm
    have := h _ hm
    rw [dayDist_self] at this
    omega
  rw [if_neg hmem, foldl_closestStep_far _ avail (none, none) h]

theorem pairStep_eq (pws : List Civil) (wps : List WeekPair) (c : Civil) :
    pairStep pws wps c = wps ++ [⟨c, findClosestPreviousYearWeek c pws⟩] := by
  cases hf : findClosestPreviousYearWeek c pws <;> simp [pairStep, hf]

theorem buildWeekPairs_eq_map (cws pws : List Civil) :
    buildWeekPairs cws pws = cws.map (fun c => ⟨c, findClosestPreviousYearWeek c pws⟩) := by
  have h : ∀ (l : List Civil) (acc : List WeekPair),
      l.foldl (pairStep pws) acc =
        acc ++ l.map (fun c => ⟨c, findClosestPreviousYearWeek c pws⟩) := by
    intro l
    induction l with
    | nil => intro acc; simp
    | cons c cs ih =>
        intro acc
        rw [List.foldl_cons, pairStep_eq, ih]
        simp
  simpa [buildWeekPairs] using h cws []

theorem buildWeekPairs_get? (cws pws : List Civil) (i : ℕ) (h : i < cws.length) :
    (buildWeekPairs cws pws).get? i =
      some ⟨cws.get ⟨i, h⟩, findClosestPreviousYearWeek (cws.get ⟨i, h⟩) pws⟩ := by
  rw [buildWeekPairs_eq_map, List.get?_map, List.get?_eq_get h]
  rfl

/-! ## Claims C1-C4: the weekly pairing -/

/-- C1 (counterexample): the weekly pairing does NOT skip already-claimed
comparison buckets — with current-year weeks 2025-01-06 and 2025-01-13 and
the single comparison week 2024-01-10 (4 and 3 days from the respective
one-year-back targets), both PeriodPairs are assigned the same comparison
bucket 2024-01-10. -/
theorem comparison_uniqueness_cex :
    buildWeekPairs [⟨2025, 1, 6⟩, ⟨2025, 1, 13⟩] [⟨2024, 1, 10⟩] =
      [⟨⟨2025, 1, 6⟩, some ⟨2024, 1, 10⟩⟩, ⟨⟨2025, 1, 13⟩, some ⟨2024, 1, 10⟩⟩] := by
  decide

/-- C1 (amended): each current-year week is matched independently against the
full comparison-year week list — `findClosestPreviousYearWeek` is always
called with the whole list, with no skipping of buckets claimed by earlier
pairs, so a comparison bucket can be assigned to more than one PeriodPair. -/
theorem pairing_searches_full_list (cws pws : List Civil) (i : ℕ) (h : i < cws.length) :
    (buildWeekPairs cws pws).get? i =
      some ⟨cws.get ⟨i, h⟩, findClosestPreviousYearWeek (cws.get ⟨i, h⟩) pws⟩ :=
  buildWeekPairs_get? cws pws i h

/-- Witness for `pairing_searches_full_list` at a concrete input. -/
theorem pairing_searches_full_list_witness :
    (buildWeekPairs [⟨2025, 1, 6⟩, ⟨2025, 1, 13⟩] [⟨2024, 1, 10⟩]).get? 1 =
      some ⟨⟨2025, 1, 13⟩,
        findClosestPreviousYearWeek ⟨2025, 1, 13⟩ [⟨2024, 1, 10⟩]⟩ := by
  exact pairing_searches_full_list [⟨2025, 1, 6⟩, ⟨2025, 1, 13⟩] [⟨2024, 1, 10⟩] 1 (by decide)

/-- C2: exact-match preference — whenever the comparison list contains the
bucket whose start date is the same calendar date one year earlier than the
current week (which exists exactly when the current week is not Feb 29),
`findClosestPreviousYearWeek` returns that bucket and no other. -/
theorem exact_match_preference (cur : Civil) (avail : List Civil)
    (hfeb : ¬ (cur.month = 2 ∧ cur.day = 29))
    (hmem : Civil.mk (cur.year - 1) cur.month cur.day ∈ avail) :
    findClosestPreviousYearWeek cur avail = some ⟨cur.year - 1, cur.month, cur.day⟩ := by
  have h1 : jsSetFullYear cur (cur.year - 1) = ⟨cur.year - 1, cur.month, cur.day⟩ := by
    unfold jsSetFullYear
    rw [if_neg]
    rintro ⟨h2, h3, _⟩
    exact hfeb ⟨h2, h3⟩
  simp only [findClosestPreviousYearWeek, h1]
  rw [if_pos hmem]

/-- Witness for `exact_match_preference` at a concrete input. -/
theorem exact_match_preference_witness :
    findClosestPreviousYearWeek ⟨2025, 1, 6⟩ [⟨2024, 1, 8⟩, ⟨2024, 1, 6⟩] =
      some ⟨2024, 1, 6⟩ := by
  exact exact_match_preference ⟨2025, 1, 6⟩ [⟨2024, 1, 8⟩, ⟨2024, 1, 6⟩]
    (by decide) (by decide)

/-- C3: tolerance boundary — (1) a comparison bucket exactly 7 days from the
one-year-back target is eligible and chosen at a concrete input; (2) every
chosen bucket is within 7 days of the target, so a bucket 8 days away is
never chosen; (3) if every bucket is more than 7 days away the function
returns `null`. -/
theorem tolerance_boundary :
    (findClosestPreviousYearWeek ⟨2025, 1, 13⟩ [⟨2024, 1, 6⟩] = some ⟨2024, 1, 6⟩ ∧
      dayDist ⟨2024, 1, 6⟩ ⟨2024, 1, 13⟩ = 7) ∧
    (∀ (cur : Civil) (avail : List Civil) (w : Civil),
      findClosestPreviousYearWeek cur avail = some w →
      dayDist w (jsSetFullYear cur (cur.year - 1)) ≤ 7) ∧
    (∀ (cur : Civil) (avail : List Civil),
      (∀ w ∈ avail, 7 < dayDist w (jsSetFullYear cur (cur.year - 1))) →
      findClosestPreviousYearWeek cur avail = none) :=
  ⟨⟨by decide, by decide⟩, findClosest_within, findClosest_none_of_far⟩

/-- Witness for `tolerance_boundary` at concrete inputs: the 7-day-away
bucket is accepted; with only an 8-day-away bucket (2024-01-21 against
target 2024-01-13) the result is `null`. -/
theorem tolerance_boundary_witness :
    dayDist ⟨2024, 1, 6⟩ (jsSetFullYear ⟨2025, 1, 13⟩ (2025 - 1)) ≤ 7 ∧
    findClosestPreviousYearWeek ⟨2025, 1, 13⟩ [⟨2024, 1, 21⟩] = none := by
  constructor
  · exact tolerance_boundary.2.1 ⟨2025, 1, 13⟩ [⟨2024, 1, 6⟩] ⟨2024, 1, 6⟩ (by decide)
  · exact tolerance_boundary.2.2 ⟨2025, 1, 13⟩ [⟨2024, 1, 21⟩] (by decide)

/-- C4: pairing totality — the pairing loop emits exactly one PeriodPair per
current-year bucket, in order (none dropped, none duplicated), and a bucket
with no suitable comparison match still yields a pair, with a `null`
comparison bucket. -/
theorem pairing_totality (cws pws : List Civil) :
    (buildWeekPairs cws pws).length = cws.length ∧
    (∀ (i : ℕ) (h : i < cws.length),
      ((buildWeekPairs cws pws).get? i).map WeekPair.current = some (cws.get ⟨i, h⟩)) ∧
    (∀ (i : ℕ) (h : i < cws.length),
      findClosestPreviousYearWeek (cws.get ⟨i, h⟩) pws = none →
      (buildWeekPairs cws pws).get? i = some ⟨cws.get ⟨i, h⟩, none⟩) := by
  refine ⟨by rw [buildWeekPairs_eq_map]; simp, ?_, ?_⟩
  · intro i h
    rw [buildWeekPairs_get? cws pws i h]
    rfl
  · intro i h hnone
    rw [buildWeekPairs_get? cws pws i h, hnone]

/-- Witness for `pairing_totality` at concrete inputs (2024-06-03 is more
than 7 days from the 2025-01-06 target 2024-01-06, so that pairing has a
`null` comparison bucket and is still emitted). -/
theorem pairing_totality_witness :
    ((buildWeekPairs [⟨2025, 1, 6⟩] [⟨2024, 1, 8⟩]).get? 0).map WeekPair.current =
      some ⟨2025, 1, 6⟩ ∧
    (buildWeekPairs [⟨2025, 1, 6⟩] [⟨2024, 6, 3⟩]).get? 0 =
      some ⟨⟨2025, 1, 6⟩, none⟩ := by
  constructor
  · exact (pairing_totality [⟨2025, 1, 6⟩] [⟨2024, 1, 8⟩]).2.1 0 (by decide)
  · exact (pairing_totality [⟨2025, 1, 6⟩] [⟨2024, 6, 3⟩]).2.2 0 (by decide) (by decide)

/-! ## Claim C5: division-by-zero guards -/

theorem eval_ifE_of_true (env : String → ℕ → SVal) (agg : List FExpr → ℚ) (c t e : FExpr)
    (h : FExpr.eval env agg c = some (.vbool true)) :
    FExpr.eval env agg (.ifE c t e) = FExpr.eval env agg t := by
  simp only [FExpr.eval]
  rw [h]

theorem eval_ifE_of_false (env : String → ℕ → SVal) (agg : List FExpr → ℚ) (c t e : FExpr)
    (h : FExpr.eval env agg c = some (.vbool false)) :
    FExpr.eval env agg (.ifE c t e) = FExpr.eval env agg e := by
  simp only [FExpr.eval]
  rw [h]

/-- Evaluation of the guarded-ratio shape `IF(den>0, num/den, 0)`: total, and
`0` whenever the guard fails — the division is never evaluated then. -/
theorem eval_guarded_div (f : String → ℕ → ℚ) (agg : List FExpr → ℚ)
    (ncol dcol : String) (nrow drow : ℕ) :
    FExpr.eval (envOf f) agg
      (FExpr.ifE (.gtE (.cellRef dcol drow) (.numLit 0))
        (.divE (.cellRef ncol nrow) (.cellRef dcol drow)) (.numLit 0)) =
      some (.vnum (if 0 < f dcol drow then f ncol nrow / f dcol drow else 0)) := by
  by_cases hd : 0 < f dcol drow
  · have hne : f dcol drow ≠ 0 := ne_of_gt hd
    simp [FExpr.eval, envOf, hd, hne]
  · simp [FExpr.eval, envOf, hd]

/-- Evaluation of the guarded-index shape `IF(den>0, (num/den)*100, 0)`. -/
theorem eval_guarded_index (f : String → ℕ → ℚ) (agg : List FExpr → ℚ)
    (ncol dcol : String) (nrow drow : ℕ) :
    FExpr.eval (envOf f) agg
      (FExpr.ifE (.gtE (.cellRef dcol drow) (.numLit 0))
        (.mulE (.parenE (.divE (.cellRef ncol nrow) (.cellRef dcol drow))) (.numLit 100))
        (.numLit 0)) =
      some (.vnum (if 0 < f dcol drow then f ncol nrow / f dcol drow * 100 else 0)) := by
  by_cases hd : 0 < f dcol drow
  · have hne : f dcol drow ≠ 0 := ne_of_gt hd
    simp [FExpr.eval, envOf, hd, hne]
  · simp [FExpr.eval, envOf, hd]

/-- Evaluation of a generated week-over-week formula: total, `0` on the first
data row (`rowNum = 11`), and `0` whenever the predecessor cell is not
positive. -/
theorem eval_wow (f : String → ℕ → ℚ) (agg : List FExpr → ℚ) (col : String) (r : ℕ) :
    FExpr.eval (envOf f) agg (wowFormula col r) =
      some (.vnum (if (11 : ℚ) < (r : ℚ) then
        (if 0 < f col (r - 1) then f col r / f col (r - 1) * 100 else 0) else 0)) := by
  unfold wowFormula createIfFormula
  by_cases hr : (11 : ℚ) < (r : ℚ)
  · rw [eval_ifE_of_true _ _ _ _ _ (by simp [FExpr.eval, hr]), eval_guarded_index]
    rw [if_pos hr]
  · rw [eval_ifE_of_false _ _ _ _ _ (by simp [FExpr.eval, hr])]
    simp [FExpr.eval, hr]

/-- Evaluation of a generated YoY index formula. -/
theorem eval_index (f : String → ℕ → ℚ) (agg : List FExpr → ℚ)
    (curCol prevCol : String) (r : ℕ) :
    FExpr.eval (envOf f) agg (indexFormula curCol prevCol r) =
      some (.vnum (if 0 < f prevCol r then f curCol r / f prevCol r * 100 else 0)) := by
  unfold indexFormula createIfFormula
  exact eval_guarded_index f agg curCol prevCol r r

/-- C5: division-by-zero guard — each derived-ratio formula (average CPC,
cost per conversion, conversion value per cost, for both years), each YoY
index formula and each week-over-week formula of the generated summary rows
evaluates to exactly `0` whenever its denominator cell is `0`, and always
evaluates to a number, never to a formula error; likewise the per-record
derived ratios of `processData` are `0` when their denominators are `0`. -/
theorem division_by_zero_guard (f : String → ℕ → ℚ) (agg : List FExpr → ℚ) (r : ℕ) :
    ((f "C" r = 0 → FExpr.eval (envOf f) agg (avgCPCCurrentFormula r) = some (.vnum 0)) ∧
     (f "D" r = 0 → FExpr.eval (envOf f) agg (avgCPCPreviousFormula r) = some (.vnum 0)) ∧
     (f "O" r = 0 → FExpr.eval (envOf f) agg (costPerConvCurrentFormula r) = some (.vnum 0)) ∧
     (f "Q" r = 0 → FExpr.eval (envOf f) agg (costPerConvPreviousFormula r) = some (.vnum 0)) ∧
     (f "K" r = 0 → FExpr.eval (envOf f) agg (convValueCostCurrentFormula r) = some (.vnum 0)) ∧
     (f "M" r = 0 → FExpr.eval (envOf f) agg (convValueCostPreviousFormula r) = some (.vnum 0))) ∧
    ((∀ curCol prevCol, f prevCol r = 0 →
        FExpr.eval (envOf f) agg (indexFormula curCol prevCol r) = some (.vnum 0)) ∧
     (∀ col, f col (r - 1) = 0 →
        FExpr.eval (envOf f) agg (wowFormula col r) = some (.vnum 0))) ∧
    ((∃ q, FExpr.eval (envOf f) agg (avgCPCCurrentFormula r) = some (.vnum q)) ∧
     (∃ q, FExpr.eval (envOf f) agg (avgCPCPreviousFormula r) = some (.vnum q)) ∧
     (∃ q, FExpr.eval (envOf f) agg (costPerConvCurrentFormula r) = some (.vnum q)) ∧
     (∃ q, FExpr.eval (envOf f) agg (costPerConvPreviousFormula r) = some (.vnum q)) ∧
     (∃ q, FExpr.eval (envOf f) agg (convValueCostCurrentFormula r) = some (.vnum q)) ∧
     (∃ q, FExpr.eval (envOf f) agg (convValueCostPreviousFormula r) = some (.vnum q)) ∧
     (∀ curCol prevCol, ∃ q,
        FExpr.eval (envOf f) agg (indexFormula curCol prevCol r) = some (.vnum q)) ∧
     (∀ col, ∃ q, FExpr.eval (envOf f) agg (wowFormula col r) = some (.vnum q))) ∧
    (∀ (brands : List String) (row : GaqlRow),
      (row.clicks.getD 0 = 0 → (processRow brands row).costPerClick = 0) ∧
      (row.conversions.getD 0 = 0 → (processRow brands row).costPerConversion = 0) ∧
      ((processRow brands row).cost = 0 → (processRow brands row).roas = 0)) := by
  have h1 : FExpr.eval (envOf f) agg (avgCPCCurrentFormula r) =
      some (.vnum (if 0 < f "C" r then f "K" r / f "C" r else 0)) := by
    unfold avgCPCCurrentFormula createIfFormula; exact eval_guarded_div f agg "K" "C" r r
  have h2 : FExpr.eval (envOf f) agg (avgCPCPreviousFormula r) =
      some (.vnum (if 0 < f "D" r then f "L" r / f "D" r else 0)) := by
    unfold avgCPCPreviousFormula createIfFormula; exact eval_guarded_div f agg "L" "D" r r
  have h3 : FExpr.eval (envOf f) agg (costPerConvCurrentFormula r) =
      some (.vnum (if 0 < f "O" r then f "K" r / f "O" r else 0)) := by
    unfold costPerConvCurrentFormula createIfFormula; exact eval_guarded_div f agg "K" "O" r r
  have h4 : FExpr.eval (envOf f) agg (costPerConvPreviousFormula r) =
      some (.vnum (if 0 < f "Q" r then f "M" r / f "Q" r else 0)) := by
    unfold costPerConvPreviousFormula createIfFormula; exact eval_guarded_div f agg "M" "Q" r r
  have h5 : FExpr.eval (envOf f) agg (convValueCostCurrentFormula r) =
      some (.vnum (if 0 < f "K" r then f "W" r / f "K" r else 0)) := by
    unfold convValueCostCurrentFormula createIfFormula; exact eval_guarded_div f agg "W" "K" r r
  have h6 : FExpr.eval (envOf f) agg (convValueCostPreviousFormula r) =
      some (.vnum (if 0 < f "M" r then f "Y" r / f "M" r else 0)) := by
    unfold convValueCostPreviousFormula createIfFormula; exact eval_guarded_div f agg "Y" "M" r r
  refine ⟨⟨?_, ?_, ?_, ?_, ?_, ?_⟩, ⟨?_, ?_⟩,
    ⟨⟨_, h1⟩, ⟨_, h2⟩, ⟨_, h3⟩, ⟨_, h4⟩, ⟨_, h5⟩, ⟨_, h6⟩,
      fun curCol prevCol => ⟨_, eval_index f agg curCol prevCol r⟩,
      fun col => ⟨_, eval_wow f agg col r⟩⟩, ?_⟩
  · intro h; rw [h1]; simp [h]
  · intro h; rw [h2]; simp [h]
  · intro h; rw [h3]; simp [h]
  · intro h; rw [h4]; simp [h]
  · intro h; rw [h5]; simp [h]
  · intro h; rw [h6]; simp [h]
  · intro curCol prevCol h; rw [eval_index]; simp [h]
  · intro col h; rw [eval_wow]; simp [h]
  · intro brands row
    refine ⟨fun h => ?_, fun h => ?_, fun h => ?_⟩
    · simp [processRow, h]
    · simp [processRow, h]
    · simp only [processRow] at h ⊢
      rw [h]
      simp

/-- Witness for `division_by_zero_guard` with an all-zero cell environment
and an empty record. -/
theorem division_by_zero_guard_witness :
    FExpr.eval (envOf fun _ _ => 0) (fun _ => 0) (avgCPCCurrentFormula 11) = some (.vnum 0) ∧
    FExpr.eval (envOf fun _ _ => 0) (fun _ => 0) (indexFormula "C" "E" 11) = some (.vnum 0) ∧
    FExpr.eval (envOf fun _ _ => 0) (fun _ => 0) (wowFormula "C" 12) = some (.vnum 0) ∧
    (processRow [] ⟨none, none, none, none, none, none, none, none⟩).costPerClick = 0 := by
  refine ⟨?_, ?_, ?_, ?_⟩
  · exact (division_by_zero_guard (fun _ _ => 0) (fun _ => 0) 11).1.1 rfl
  · exact (division_by_zero_guard (fun _ _ => 0) (fun _ => 0) 11).2.1.1 "C" "E" rfl
  · exact (division_by_zero_guard (fun _ _ => 0) (fun _ => 0) 12).2.1.2 "C" rfl
  · exact ((division_by_zero_guard (fun _ _ => 0) (fun _ => 0) 11).2.2.2 []
      ⟨none, none, none, none, none, none, none, none⟩).1 rfl

/-! ## Claim C6: monthly positional pairing -/

/-- C6 (counterexample): the comparison-year month list is NOT truncated to
the same count of periods as the current-year list — with months
2024-01, 2024-02, 2025-01 and `currentMonthNumber = 2` (a March run), the
current-year list has 1 entry but the comparison-year list keeps 2. -/
theorem monthly_truncation_cex :
    monthlyLists [⟨2024, 1, 1⟩, ⟨2024, 2, 1⟩, ⟨2025, 1, 1⟩] 2025 2024 2 =
      ([⟨2025, 1, 1⟩], [⟨2024, 1, 1⟩, ⟨2024, 2, 1⟩]) ∧
    (monthlyLists [⟨2024, 1, 1⟩, ⟨2024, 2, 1⟩, ⟨2025, 1, 1⟩] 2025 2024 2).2.length ≠
      (monthlyLists [⟨2024, 1, 1⟩, ⟨2024, 2, 1⟩, ⟨2025, 1, 1⟩] 2025 2024 2).1.length := by
  constructor
  · decide
  · decide

/-- C6 (amended): both month lists are truncated to the first
`currentMonthNumber` entries (the last complete month's 1-based number) — not
to each other's length — and the pairing is purely positional: pair `i` is
the `i`-th current-year month with the `i`-th comparison-year month, `null`
when the comparison list is shorter; no date-distance search is involved. -/
theorem monthly_positional_pairing (rawMonths : List Civil) (cy py : Int) (n i : ℕ)
    (h : i < ((monthlyLists rawMonths cy py n).1).length) :
    ((monthlyLists rawMonths cy py n).1).length ≤ n ∧
    ((monthlyLists rawMonths cy py n).2).length ≤ n ∧
    (monthlyPairs (monthlyLists rawMonths cy py n).1
        (monthlyLists rawMonths cy py n).2).length =
      ((monthlyLists rawMonths cy py n).1).length ∧
    (monthlyPairs (monthlyLists rawMonths cy py n).1
        (monthlyLists rawMonths cy py n).2).get? i =
      some (((monthlyLists rawMonths cy py n).1).get ⟨i, h⟩,
        ((monthlyLists rawMonths cy py n).2).get? i) := by
  refine ⟨?_, ?_, ?_, ?_⟩
  · simp only [monthlyLists, List.length_take]
    omega
  · simp only [monthlyLists, List.length_take]
    omega
  · simp [monthlyPairs, List.enum_length]
  · unfold monthlyPairs
    rw [List.get?_map, List.get?_enum, List.get?_eq_get h]
    rfl

/-- Witness for `monthly_positional_pairing` at a concrete input. -/
theorem monthly_positional_pairing_witness :
    (monthlyPairs (monthlyLists [⟨2024, 1, 1⟩, ⟨2025, 1, 1⟩] 2025 2024 2).1
        (monthlyLists [⟨2024, 1, 1⟩, ⟨2025, 1, 1⟩] 2025 2024 2).2).get? 0 =
      some (⟨2025, 1, 1⟩, some ⟨2024, 1, 1⟩) := by
  have h := (monthly_positional_pairing [⟨2024, 1, 1⟩, ⟨2025, 1, 1⟩] 2025 2024 2 0
    (by decide)).2.2.2
  exact h

/-! ## Claim C7: incomplete-period truncation -/

/-- C7: the current, unfinished period never appears as a bucket — (weekly)
for any run day, every report row's date is at most the last complete Sunday,
so its Monday-start week ends strictly before the run day; (monthly) every
report row's date is at most the last day of the month before the run day's
month, so its month is strictly before the run day's month. -/
theorem incomplete_period_truncation :
    (∀ today d : Int, d ≤ weeklyEndDay today → mondayOfDay d + 6 < today) ∧
    (∀ today rec : Civil, 1 ≤ rec.month → rec.month ≤ 12 →
      1 ≤ today.month → today.month ≤ 12 →
      civilLEb rec (jsMonthlyEnd today) = true → monthIdx rec < monthIdx today) := by
  constructor
  · intro today d h
    unfold weeklyEndDay jsGetDay at h
    unfold mondayOfDay
    by_cases h0 : (today + 4) % 7 = 0
    · rw [if_pos h0] at h
      omega
    · rw [if_neg h0] at h
      omega
  · intro today rec hr1 hr2 ht1 ht2 h
    unfold jsMonthlyEnd at h
    unfold monthIdx
    by_cases h0 : today.month = 1
    · rw [if_pos h0] at h
      unfold civilLEb at h
      dsimp only at h
      split_ifs at h <;> omega
    · rw [if_neg h0] at h
      unfold civilLEb at h
      dsimp only at h
      split_ifs at h <;> omega

/-- Witness for `incomplete_period_truncation`: a Wednesday run day
(epoch day 20390) with a row on the capped end date, and an October 2025 run
with a row on 2025-09-30. -/
theorem incomplete_period_truncation_witness :
    mondayOfDay 20387 + 6 < 20390 ∧
    monthIdx ⟨2025, 9, 30⟩ < monthIdx ⟨2025, 10, 11⟩ :=
  ⟨incomplete_period_truncation.1 20390 20387 (by decide),
    incomplete_period_truncation.2 ⟨2025, 10, 11⟩ ⟨2025, 9, 30⟩ (by decide) (by decide)
      (by decide) (by decide) (by decide)⟩

/-! ## Claim C8: malformed-record handling -/

theorem processData_eq (brands : List String) (rows : List GaqlRow) :
    processData brands rows =
      ⟨rows.map (processRow brands), rows.length,
        (rows.filter (fun row => decide ((row.campaignName.getD "") ∈ brands))).length⟩ := by
  have h : ∀ (l : List GaqlRow) (res : ProcessResult),
      l.foldl (processStep brands) res =
        ⟨res.data ++ l.map (processRow brands), res.count + l.length,
          res.brandCampaignCount +
            (l.filter (fun row => decide ((row.campaignName.getD "") ∈ brands))).length⟩ := by
    intro l
    induction l with
    | nil => intro res; simp
    | cons r rs ih =>
        intro res
        rw [List.foldl_cons, ih]
        by_cases hb : (r.campaignName.getD "") ∈ brands
        · simp [processStep, hb, List.filter_cons]
          omega
        · simp [processStep, hb, List.filter_cons]
          omega
  simpa [processData] using h rows ⟨[], 0, 0⟩

theorem strContains_empty (year : String) (h : strContains "" year = true) : year = "" := by
  unfold strContains at h
  have hd : ("" : String).data = [] := rfl
  rw [hd] at h
  simp [List.range_succ] at h
  cases hy2 : year.data with
  | nil =>
      apply String.ext
      rw [hy2, hd]
  | cons c cs =>
      rw [hy2] at h
      simp [leadsWith] at h

/-- C8 (counterexample): a record with missing `periodStart` is NOT skipped
and no skipped-record count is surfaced — with one good and one
week-less record, `processData` pushes BOTH rows (the malformed one with an
empty week start), and its surfaced quantities are `count = 2`,
`data.length = 2` (`processedRecords`), `brandCampaignCount = 0`: the number
of malformed records (1) appears in no output counter, and
`count - data.length = 0`. -/
theorem malformed_record_cex :
    (processData [] [⟨some "2025-01-06", none, none, none, none, none, none, none⟩,
        ⟨none, none, none, none, none, none, none, none⟩]).count = 2 ∧
    (processData [] [⟨some "2025-01-06", none, none, none, none, none, none, none⟩,
        ⟨none, none, none, none, none, none, none, none⟩]).data.length = 2 ∧
    (processData [] [⟨some "2025-01-06", none, none, none, none, none, none, none⟩,
        ⟨none, none, none, none, none, none, none, none⟩]).brandCampaignCount = 0 ∧
    ((processData [] [⟨some "2025-01-06", none, none, none, none, none, none, none⟩,
        ⟨none, none, none, none, none, none, none, none⟩]).data.map OutRow.weekStart) =
      ["2025-01-06", ""] := by
  refine ⟨?_, ?_, ?_, ?_⟩ <;> decide

/-- C8 (amended): a record with missing/malformed `periodStart` does not
abort the run — every input row is processed and pushed (the malformed one
with an empty week start), the empty week start never enters any year's
bucket list (so the record is excluded from period pairing and from the
per-week aggregation keys), but NO count of such records is surfaced: the
run's counters are the total row count, the pushed-row count and the brand
count only. -/
theorem malformed_record_handling (brands : List String) (rows : List GaqlRow)
    (row : GaqlRow) (hweek : row.week = none) :
    (processData brands rows).data.length = rows.length ∧
    (processData brands rows).count = rows.length ∧
    (processRow brands row).weekStart = "" ∧
    (∀ (data : List OutRow) (year : String), year ≠ "" → "" ∉ yearWeeksOf data year) := by
  refine ⟨by rw [processData_eq]; simp, by rw [processData_eq], ?_, ?_⟩
  · simp [processRow, hweek]
  · intro data year hy hmem
    unfold yearWeeksOf at hmem
    rw [List.mem_filter] at hmem
    exact hy (strContains_empty year (by simpa using hmem.2))

/-- Witness for `malformed_record_handling` on a single week-less record. -/
theorem malformed_record_handling_witness :
    (processData [] [⟨none, none, none, none, none, none, none, none⟩]).data.length = 1 ∧
    (processRow [] ⟨none, none, none, none, none, none, none, none⟩).weekStart = "" := by
  have h := malformed_record_handling [] [⟨none, none, none, none, none, none, none, none⟩]
    ⟨none, none, none, none, none, none, none, none⟩ rfl
  exact ⟨h.1, h.2.2.1⟩

/-! ## Claim C9: formula-builder determinism/idempotence -/

/-- C9: regenerating the summary formula block is idempotent and
deterministic — the written block (every formula string, in every row and
column position) depends only on the week pairs, not on whatever was on the
sheet before (`clear()` discards it), so two invocations with identical
PeriodPairs yield byte-identical expression sets, and re-running on a sheet
already holding the generated block reproduces exactly the same block. -/
theorem formula_builder_idempotent :
    (∀ (priorA priorB : List (List SheetCell)) (weekPairs : List WeekPair),
      writeWeeklySummaryBlock priorA weekPairs = writeWeeklySummaryBlock priorB weekPairs) ∧
    (∀ (prior : List (List SheetCell)) (weekPairs : List WeekPair),
      writeWeeklySummaryBlock (writeWeeklySummaryBlock prior weekPairs) weekPairs =
        writeWeeklySummaryBlock prior weekPairs) :=
  ⟨fun _ _ _ => rfl, fun _ _ => rfl⟩

/-! ## Claim C10: cost normalization from micros -/

/-- C10: every stored record's cost is `Math.round((costMicros/1e6)*100)/100`
and its conversion value is rounded to 2 decimals before storage, and the
per-record cost-per-click divides the cent-rounded cost; the spec's example
(1 000 000 micros, 10 clicks) stores cost 1.00 and cost-per-click 0.10; and
downstream sums range over the cent-rounded values, not the exact micro
amounts (two 4 000-micro records sum to 0, while cent-rounding the exact
total would give 0.01). -/
theorem cost_normalization :
    (∀ (brands : List String) (row : GaqlRow),
      (processRow brands row).cost = round2 (row.costMicros.getD 0 / 1000000) ∧
      (processRow brands row).conversionValue = round2 (row.conversionsValue.getD 0) ∧
      (processRow brands row).costPerClick =
        (if 0 < row.clicks.getD 0 then
          round2 (round2 (row.costMicros.getD 0 / 1000000) / row.clicks.getD 0) else 0)) ∧
    ((processRow [] ⟨some "2025-02-01", none, none, none, some 10, some 1000000,
        none, none⟩).cost = 1 ∧
      (processRow [] ⟨some "2025-02-01", none, none, none, some 10, some 1000000,
        none, none⟩).costPerClick = 1 / 10) ∧
    (((processData [] [⟨none, none, none, none, none, some 4000, none, none⟩,
        ⟨none, none, none, none, none, some 4000, none, none⟩]).data.map OutRow.cost).sum = 0 ∧
      round2 ((4000 + 4000) / 1000000) = 1 / 100) := by
  refine ⟨fun brands row => ⟨rfl, rfl, rfl⟩, ⟨?_, ?_⟩, ⟨?_, ?_⟩⟩
  · norm_num [processRow, round2, jsRound]
  · norm_num [processRow, round2, jsRound]
  · rw [processData_eq]
    norm_num [processRow, round2, jsRound]
  · norm_num [round2, jsRound]

end WeeklyAdsMonitor
